import Mathlib

/-
Shallow embedding of my_timetracker (src/app.py): a tkinter GUI bound to a
PostgreSQL store through a small gateway class `Database`.

The store is modelled as an explicit state `DBState` holding the two tables
(`mtt_users`, `mtt_tasks`), the next SERIAL ids, and the store clock
(`CURRENT_TIMESTAMP`, modelled as a natural number that only moves forward).
Each gateway method of app.py becomes a pure function on `DBState`.
Store faults (unreachable store, constraint violations reported by the
driver) are supplied by an explicit fault parameter, and the embedding of a
method records what its `except` handlers do with them: which branch runs,
whether the state is rolled back, what the caller receives, and whether the
process terminates (`sys.exit`).
-/

namespace MyTimetracker

/-- Row of the mtt_users table: id SERIAL PRIMARY KEY, username VARCHAR UNIQUE. -/
structure UserRow where
  id : Nat
  username : String
  deriving Repr, DecidableEq

/-- Row of the mtt_tasks table: id SERIAL PRIMARY KEY, user_id INT,
task VARCHAR, start TIMESTAMP, finish TIMESTAMP (NULL while the entry is open). -/
structure TaskRow where
  id : Nat
  user_id : Nat
  task : String
  start : Nat
  finish : Option Nat
  deriving Repr, DecidableEq

/-- State of the store: both tables, the SERIAL counters, and the store clock. -/
structure DBState where
  users : List UserRow
  tasks : List TaskRow
  nextUserId : Nat
  nextTaskId : Nat
  clock : Nat
  deriving Repr, DecidableEq

/-- A store fault affecting a statement: the store being unreachable surfaces
as a psycopg2.Error on execute. -/
inductive StoreFault where
  | connectionError
  deriving Repr, DecidableEq

/-- A Python exception escaping a gateway method to its caller. -/
inductive PyExn where
  | connectionError
  | storeError
  deriving Repr, DecidableEq

/-- Database.add_user (app.py lines 94-110): INSERT INTO mtt_users RETURNING id,
commit, return the id.  A UniqueViolation (the username already present) is
caught: logged, rolled back, and None is returned; same for any other
psycopg2.Error.  The embedding returns the new state and the returned id. -/
def Database.add_user (s : DBState) (username : String) : DBState × Option Nat :=
  if s.users.any (fun r => r.username = username) then
    (s, none)
  else
    ({ s with
        users := s.users ++ [⟨s.nextUserId, username⟩],
        nextUserId := s.nextUserId + 1 },
     some s.nextUserId)

/-- Database.get_or_create_user (app.py lines 155-173): SELECT id by username;
if a row exists return its id, otherwise call add_user.  Any psycopg2.Error
(in particular the store being unreachable) is caught: logged, rolled back,
and user_id = None is returned.  The Except layer records whether an
exception escapes to the caller; the method never lets one escape. -/
def Database.get_or_create_user (s : DBState) (username : String)
    (fault : Option StoreFault) : DBState × Except PyExn (Option Nat) :=
  match fault with
  | some .connectionError => (s, Except.ok none)
  | none =>
    match s.users.find? (fun r => r.username = username) with
    | some row => (s, Except.ok (some row.id))
    | none =>
      let (s1, uid) := Database.add_user s username
      (s1, Except.ok uid)

/-- What Database.start_task does after its try block, as observable by the
process: normal return, the UniqueViolation handler (logged
"already exists", rolled back, normal return), or the generic handler
(logged, rolled back, sys.exit()). -/
inductive StartSignal where
  | ok
  | taskAlreadyActive
  | processExit
  deriving Repr, DecidableEq

/-- A fault raised by the INSERT of start_task. -/
inductive StartFault where
  | uniqueViolation
  | otherError
  deriving Repr, DecidableEq

/-- Database.start_task (app.py lines 112-129): INSERT an open task row with
start = CURRENT_TIMESTAMP, commit.  except UniqueViolation: log, rollback
(no exit); except psycopg2.Error: log, rollback, sys.exit(). -/
def Database.start_task (s : DBState) (user_id : Nat) (task_name : String)
    (fault : Option StartFault) : DBState × StartSignal :=
  match fault with
  | none =>
    ({ s with
        tasks := s.tasks ++ [⟨s.nextTaskId, user_id, task_name, s.clock, none⟩],
        nextTaskId := s.nextTaskId + 1 },
     StartSignal.ok)
  | some .uniqueViolation => (s, StartSignal.taskAlreadyActive)
  | some .otherError => (s, StartSignal.processExit)

/-- Database.finish_task (app.py lines 131-145): UPDATE mtt_tasks SET finish =
CURRENT_TIMESTAMP WHERE user_id = %s AND task = %s AND finish IS NULL, then
commit.  The WHERE clause has no ORDER BY or LIMIT: every open row matching
(user_id, task) is updated; zero matching rows is not an error. -/
def Database.finish_task (s : DBState) (user_id : Nat) (task_name : String) :
    DBState :=
  { s with
      tasks := s.tasks.map (fun r =>
        if r.user_id = user_id ∧ r.task = task_name ∧ r.finish = none then
          { r with finish := some s.clock }
        else r) }

/-- A modal dialog shown by messagebox.showerror in the GUI layer. -/
inductive Dialog where
  | inputError
  | databaseError
  deriving Repr, DecidableEq

/-- The controller state TimerApp owns: the selected user id and the
enablement of the widgets the handlers toggle (tk.NORMAL / tk.DISABLED). -/
structure AppState where
  user_id : Option Nat
  userEntryEnabled : Bool
  userButtonEnabled : Bool
  startButtonEnabled : Bool
  stopButtonEnabled : Bool
  deriving Repr, DecidableEq

/-- Outcome of one run of TimerApp.setup_user: the controller state, the store
state, whether any store call was made, and the dialog shown, if any. -/
structure SetupResult where
  app : AppState
  db : DBState
  storeCalled : Bool
  dialog : Option Dialog
  deriving Repr, DecidableEq

/-- TimerApp.setup_user (app.py lines 222-236): read the username entry; if it
is empty, show an Input Error dialog and return without touching the store.
Otherwise call get_or_create_user; on some id, record it and flip the widget
states; on None show a Database Error dialog.  An exception escaping the
gateway would propagate (there is no try here), recorded by the Except layer. -/
def TimerApp.setup_user (a : AppState) (s : DBState) (usernameText : String)
    (fault : Option StoreFault) : Except PyExn SetupResult :=
  if usernameText = "" then
    Except.ok ⟨a, s, false, some Dialog.inputError⟩
  else
    match Database.get_or_create_user s usernameText fault with
    | (s1, Except.ok (some uid)) =>
      Except.ok ⟨{ a with
                    user_id := some uid,
                    userEntryEnabled := false,
                    userButtonEnabled := false,
                    startButtonEnabled := true },
                 s1, true, none⟩
    | (s1, Except.ok none) =>
      Except.ok ⟨a, s1, true, some Dialog.databaseError⟩
    | (_, Except.error e) => Except.error e

/-- The Python format spec 02d used by update_timer: decimal, zero-padded to
width 2. -/
def pad2 (n : Nat) : String :=
  if n < 10 then "0" ++ toString n else toString n

/-- The Python timedelta.seconds attribute: the seconds of the sub-day part of
the duration, i.e. total seconds modulo 86400 (whole days are carried by the
separate .days attribute, which update_timer never reads). -/
def timedelta_seconds (totalSeconds : Nat) : Nat :=
  totalSeconds % 86400

/-- TimerApp.update_timer body for one tick (app.py lines 254-261): elapsed =
now - start_time; hours, remainder = divmod(elapsed.seconds, 3600); minutes,
seconds = divmod(remainder, 60); the label text is hours, minutes and seconds
each formatted with the 02d spec and joined by colons.  The argument is the
elapsed duration in whole seconds. -/
def TimerApp.update_timer (elapsedTotalSeconds : Nat) : String :=
  let hours := timedelta_seconds elapsedTotalSeconds / 3600
  let remainder := timedelta_seconds elapsedTotalSeconds % 3600
  let minutes := remainder / 60
  let seconds := remainder % 60
  pad2 hours ++ ":" ++ pad2 minutes ++ ":" ++ pad2 seconds

/-- TimerApp.start_task (app.py lines 238-252): read the task entry; reject an
empty name with an Input Error dialog and no store call; otherwise call
Database.start_task on the success path and start the timer. -/
def TimerApp.start_task (uid : Nat) (s : DBState) (taskEntryText : String) :
    DBState × Option Dialog :=
  if taskEntryText = "" then (s, some Dialog.inputError)
  else ((Database.start_task s uid taskEntryText none).fst, none)

/-- TimerApp.stop_task (app.py lines 263-274): stop the timer, then re-read the
task entry widget at stop time (task_name = self.task_entry.get()) and call
Database.finish_task with whatever text is currently there; the name used at
start is not retained anywhere in the controller. -/
def TimerApp.stop_task (uid : Nat) (s : DBState) (taskEntryText : String) :
    DBState :=
  Database.finish_task s uid taskEntryText

/-- Module-level startup (app.py line 301): after connecting and listing the
mtt tables, the script unconditionally runs db.add_user("Dwisler") before
constructing the TimerApp window. -/
def moduleStartup (s : DBState) : DBState × Option Nat :=
  Database.add_user s "Dwisler"

/-- The store reached over by the claims about sequences of operations: both
tables empty, SERIAL counters at 1, clock at 0. -/
def initState : DBState := ⟨[], [], 1, 1, 0⟩

/-- One store transition: an add_user, a successful start_task, a finish_task,
or the store clock moving forward (CURRENT_TIMESTAMP is monotonic). -/
inductive Step : DBState → DBState → Prop where
  | user (s : DBState) (username : String) :
      Step s (Database.add_user s username).fst
  | start (s : DBState) (uid : Nat) (nm : String) :
      Step s (Database.start_task s uid nm none).fst
  | finish (s : DBState) (uid : Nat) (nm : String) :
      Step s (Database.finish_task s uid nm)
  | tick (s : DBState) (d : Nat) :
      Step s { s with clock := s.clock + d }

/-- Store states reachable from the initial store by any sequence of steps. -/
inductive Reachable : DBState → Prop where
  | init : Reachable initState
  | step {s t : DBState} : Reachable s → Step s t → Reachable t

/-- Timestamp sanity of the tasks table: every start is in the past of the
store clock, and every recorded finish lies between its start and the clock. -/
def TasksTimeOk (s : DBState) : Prop :=
  ∀ r ∈ s.tasks, r.start ≤ s.clock ∧ ∀ f, r.finish = some f → r.start ≤ f ∧ f ≤ s.clock

/-- An empty store used to instantiate the general theorems. -/
def db0 : DBState := ⟨[], [], 1, 1, 0⟩

/-- The controller state right after the window opens: no user selected, the
username widgets enabled, both task buttons disabled. -/
def app0 : AppState := ⟨none, true, true, false, false⟩

/-- A store with two open entries and one closed entry for user 1, two of them
named writing: the situation the mtt_tasks schema permits, since nothing in it
is unique over (user_id, task). -/
def c2state : DBState :=
  ⟨[⟨1, "alice"⟩],
   [⟨1, 1, "writing", 0, none⟩, ⟨2, 1, "writing", 5, none⟩, ⟨3, 1, "reading", 2, none⟩],
   2, 4, 10⟩

/-- A store whose only entry for (1, writing) is already closed. -/
def c3state : DBState :=
  ⟨[⟨1, "alice"⟩], [⟨1, 1, "writing", 0, some 3⟩], 2, 2, 10⟩

/-- A store holding one known user, used for the unreachable-store scenario. -/
def c5state : DBState := ⟨[⟨1, "alice"⟩], [], 2, 1, 0⟩

/-- Demo run for the timestamp invariant: start a task at clock 0. -/
def c8s1 : DBState := (Database.start_task initState 1 "writing" none).fst

/-- Demo run, next: the store clock advances by 5. -/
def c8s2 : DBState := { c8s1 with clock := c8s1.clock + 5 }

/-- Demo run, last: the task is finished at clock 5. -/
def c8s3 : DBState := Database.finish_task c8s2 1 "writing"

/-- Controller scenario: a store with user 1 already set up. -/
def c9s0 : DBState := ⟨[⟨1, "alice"⟩], [], 2, 1, 0⟩

/-- Controller scenario: the user types writing and presses Start Task. -/
def c9s1 : DBState := (TimerApp.start_task 1 c9s0 "writing").fst

/-- Controller scenario: the store clock advances while the timer runs and the
user edits the task entry widget. -/
def c9s2 : DBState := { c9s1 with clock := c9s1.clock + 5 }

/-- Controller scenario: the user presses Stop Task; stop_task re-reads the
entry widget, which now holds the edited text. -/
def c9s3 : DBState := TimerApp.stop_task 1 c9s2 "writing notes"

theorem add_user_tasks (s : DBState) (u : String) :
    (Database.add_user s u).fst.tasks = s.tasks := by
  unfold Database.add_user
  split <;> rfl

theorem add_user_clock (s : DBState) (u : String) :
    (Database.add_user s u).fst.clock = s.clock := by
  unfold Database.add_user
  split <;> rfl

/-- C2 counterexample: in c2state the open entry with start 0 is NOT the most
recent open (1, writing) entry (the one with start 5 is), yet finish_task
closes it too: the update has no ORDER BY or LIMIT, so the claim that every
other open entry of the pair is left unchanged fails at this input. -/
theorem C2_counterexample_older_open_row_also_closed :
    ((Database.finish_task c2state 1 "writing").tasks)[0]? =
      some ⟨1, 1, "writing", 0, some 10⟩ ∧
    ((Database.finish_task c2state 1 "writing").tasks)[0]? ≠
      some ⟨1, 1, "writing", 0, none⟩ := by
  constructor
  · rfl
  · decide

/-- C2 amended: finish_task stamps finish = store clock on EVERY open entry
matching (user_id, task_name), not only the most recent one, and leaves every
entry that does not match (other pair, or already finished) unchanged. -/
theorem C2_amended_finish_task_closes_every_matching_row (s : DBState)
    (uid : Nat) (nm : String) (r : TaskRow) (hr : r ∈ s.tasks) :
    (r.user_id = uid ∧ r.task = nm ∧ r.finish = none →
      { r with finish := some s.clock } ∈ (Database.finish_task s uid nm).tasks) ∧
    (¬(r.user_id = uid ∧ r.task = nm ∧ r.finish = none) →
      r ∈ (Database.finish_task s uid nm).tasks) := by
  constructor
  · intro hc
    exact List.mem_map.2 ⟨r, hr, if_pos hc⟩
  · intro hc
    exact List.mem_map.2 ⟨r, hr, if_neg hc⟩

/-- C2 witness: in c2state both open writing rows are closed at clock 10 and
the open reading row survives untouched. -/
theorem C2_witness :
    (⟨1, 1, "writing", 0, some 10⟩ : TaskRow) ∈
      (Database.finish_task c2state 1 "writing").tasks ∧
    (⟨3, 1, "reading", 2, none⟩ : TaskRow) ∈
      (Database.finish_task c2state 1 "writing").tasks := by
  constructor
  · exact (C2_amended_finish_task_closes_every_matching_row c2state 1 "writing"
      ⟨1, 1, "writing", 0, none⟩ (by decide)).1 (by decide)
  · exact (C2_amended_finish_task_closes_every_matching_row c2state 1 "writing"
      ⟨3, 1, "reading", 2, none⟩ (by decide)).2 (by decide)

/-- C3: when no row of the tasks table is an open entry for (user_id,
task_name), finish_task changes nothing at all: the UPDATE matches zero rows
and the method returns normally. -/
theorem C3_finish_task_without_match_is_noop (s : DBState) (uid : Nat)
    (nm : String)
    (h : ∀ r ∈ s.tasks, ¬(r.user_id = uid ∧ r.task = nm ∧ r.finish = none)) :
    Database.finish_task s uid nm = s := by
  unfold Database.finish_task
  have hmap :
      s.tasks.map (fun r =>
        if r.user_id = uid ∧ r.task = nm ∧ r.finish = none then
          { r with finish := some s.clock }
        else r) = s.tasks := by
    have := List.map_congr_left (l := s.tasks)
      (f := fun r =>
        if r.user_id = uid ∧ r.task = nm ∧ r.finish = none then
          { r with finish := some s.clock }
        else r)
      (g := id) (fun a ha => if_neg (h a ha))
    rw [this, List.map_id]
  rw [hmap]

/-- C3 witness: c3state has no open (2, writing) entry, so finish_task leaves
the store exactly as it was. -/
theorem C3_witness : Database.finish_task c3state 2 "writing" = c3state :=
  C3_finish_task_without_match_is_noop c3state 2 "writing" (by decide)

/-- C4: the two except branches of start_task behave differently: a
UniqueViolation is rolled back (state unchanged) and handled without leaving
the process, surfacing as the already-active outcome, while any other store
error is rolled back and ends the whole process via sys.exit; the success
path inserts the open row and returns normally. -/
theorem C4_start_task_fault_handling (s : DBState) (uid : Nat) (nm : String) :
    Database.start_task s uid nm (some StartFault.uniqueViolation) =
      (s, StartSignal.taskAlreadyActive) ∧
    Database.start_task s uid nm (some StartFault.otherError) =
      (s, StartSignal.processExit) ∧
    (Database.start_task s uid nm none).snd = StartSignal.ok := by
  exact ⟨rfl, rfl, rfl⟩

/-- C5 counterexample: with the store unreachable, get_or_create_user does not
let any exception reach its caller: it catches the psycopg2 error, rolls
back, and returns None as a normal result, contradicting the claim that a
ConnectionError propagates instead of a result being returned. -/
theorem C5_counterexample_unreachable_store_returns_none :
    Database.get_or_create_user c5state "alice" (some StoreFault.connectionError) =
      (c5state, Except.ok none) ∧
    (Database.get_or_create_user c5state "alice"
        (some StoreFault.connectionError)).snd ≠
      Except.error PyExn.connectionError := by
  constructor
  · rfl
  · intro h
    exact Except.noConfusion h

/-- C5 amended: when the store is unreachable get_or_create_user catches the
error, rolls the transaction back (store state unchanged) and returns None to
its caller; on no input does the method let an exception escape. -/
theorem C5_amended_get_or_create_user_swallows_store_errors :
    ∀ (s : DBState) (u : String),
      Database.get_or_create_user s u (some StoreFault.connectionError) =
        (s, Except.ok none) ∧
      ∀ fault, ((Database.get_or_create_user s u fault).snd).isOk = true := by
  intro s u
  refine ⟨rfl, ?_⟩
  intro fault
  cases fault with
  | some f => cases f; rfl
  | none =>
    unfold Database.get_or_create_user
    cases hf : s.users.find? (fun r => r.username = u) with
    | some row => rfl
    | none =>
      cases h2 : Database.add_user s u with
      | mk s1 uid => rfl

/-- C6 counterexample: 90000 elapsed seconds is 25 hours, but timedelta.seconds
drops the whole-day part, so the label shows 01:00:00 and never 25:00:00: the
displayed hour value does not exceed 23. -/
theorem C6_counterexample_90000_seconds_wraps :
    TimerApp.update_timer 90000 = "01:00:00" ∧
    TimerApp.update_timer 90000 ≠ "25:00:00" := by
  constructor
  · rfl
  · decide

/-- C6 amended: the tick formats zero-padded HH:MM:SS from the sub-day seconds
of the elapsed time, so the display is periodic with period 24 hours and the
hour field stays below 24; below one day it reads as expected, e.g. 3725
seconds as 01:02:05, and 90000 seconds wraps to 01:00:00. -/
theorem C6_amended_update_timer_wraps_every_day (t : Nat) :
    TimerApp.update_timer (t + 86400) = TimerApp.update_timer t ∧
    timedelta_seconds t / 3600 < 24 ∧
    TimerApp.update_timer 3725 = "01:02:05" ∧
    TimerApp.update_timer 90000 = "01:00:00" := by
  refine ⟨?_, ?_, rfl, rfl⟩
  · unfold TimerApp.update_timer timedelta_seconds
    rw [Nat.add_mod_right]
  · have h1 : timedelta_seconds t < 86400 := Nat.mod_lt t (by decide)
    have h2 : timedelta_seconds t < 3600 * 24 := by
      calc timedelta_seconds t < 86400 := h1
        _ = 3600 * 24 := by decide
    exact Nat.div_lt_of_lt_mul h2

/-- C1: for a username not yet in the users table, the first
get_or_create_user call inserts the row and returns the freshly allocated
SERIAL id, and a further call on the resulting store returns that same id
with the store unchanged (hence, by induction, so does every later call). -/
theorem C1_get_or_create_user_fresh_then_stable (s : DBState) (u : String)
    (h : ∀ r ∈ s.users, r.username ≠ u) :
    Database.get_or_create_user s u none =
      ({ s with
          users := s.users ++ [⟨s.nextUserId, u⟩],
          nextUserId := s.nextUserId + 1 },
       Except.ok (some s.nextUserId)) ∧
    Database.get_or_create_user
        { s with
            users := s.users ++ [⟨s.nextUserId, u⟩],
            nextUserId := s.nextUserId + 1 } u none =
      ({ s with
          users := s.users ++ [⟨s.nextUserId, u⟩],
          nextUserId := s.nextUserId + 1 },
       Except.ok (some s.nextUserId)) := by
  have hfind : s.users.find? (fun r => r.username = u) = none :=
    List.find?_eq_none.2 (fun x hx => by simpa using h x hx)
  have hany : ¬(s.users.any (fun r => r.username = u) = true) := by
    rw [List.any_eq_true]
    rintro ⟨x, hx, hx2⟩
    exact h x hx (by simpa using hx2)
  constructor
  · unfold Database.get_or_create_user
    rw [hfind]
    unfold Database.add_user
    rw [if_neg hany]
  · unfold Database.get_or_create_user
    rw [List.find?_append, hfind]
    simp [List.find?]

/-- C1 witness: on the empty store, the first call with bob creates user 1 and
the second call returns 1 again without touching the store. -/
theorem C1_witness :
    (∀ r ∈ db0.users, r.username ≠ "bob") ∧
    (Database.get_or_create_user db0 "bob" none =
      ({ db0 with
          users := db0.users ++ [⟨db0.nextUserId, "bob"⟩],
          nextUserId := db0.nextUserId + 1 },
       Except.ok (some db0.nextUserId)) ∧
     Database.get_or_create_user
        { db0 with
            users := db0.users ++ [⟨db0.nextUserId, "bob"⟩],
            nextUserId := db0.nextUserId + 1 } "bob" none =
      ({ db0 with
          users := db0.users ++ [⟨db0.nextUserId, "bob"⟩],
          nextUserId := db0.nextUserId + 1 },
       Except.ok (some db0.nextUserId))) :=
  ⟨by decide, C1_get_or_create_user_fresh_then_stable db0 "bob" (by decide)⟩

/-- C7: with an empty username entry, setup_user shows the Input Error dialog,
makes no store call and leaves both the controller state and the store
untouched, whatever the store would have done; with any non-empty username it
does reach the store. -/
theorem C7_setup_user_rejects_empty_locally (a : AppState) (s : DBState)
    (fault : Option StoreFault) (txt : String) (h : txt ≠ "") :
    TimerApp.setup_user a s "" fault =
      Except.ok ⟨a, s, false, some Dialog.inputError⟩ ∧
    ∃ res, TimerApp.setup_user a s txt fault = Except.ok res ∧
      res.storeCalled = true := by
  constructor
  · rfl
  · unfold TimerApp.setup_user
    rw [if_neg h]
    cases fault with
    | some f => cases f; exact ⟨_, rfl, rfl⟩
    | none =>
      unfold Database.get_or_create_user
      cases hf : s.users.find? (fun r => r.username = txt) with
      | some row => exact ⟨_, rfl, rfl⟩
      | none =>
        cases h2 : Database.add_user s txt with
        | mk s1 uid =>
          cases uid with
          | none => exact ⟨_, rfl, rfl⟩
          | some i => exact ⟨_, rfl, rfl⟩

/-- C7 witness: on the fresh window over an empty store, an empty submission
is rejected locally and a submission of alice reaches the store. -/
theorem C7_witness :
    TimerApp.setup_user app0 db0 "" none =
      Except.ok ⟨app0, db0, false, some Dialog.inputError⟩ ∧
    ∃ res, TimerApp.setup_user app0 db0 "alice" none = Except.ok res ∧
      res.storeCalled = true :=
  C7_setup_user_rejects_empty_locally app0 db0 none "alice" (by decide)

theorem tasksTimeOk_step {s t : DBState} (hs : TasksTimeOk s) (hst : Step s t) :
    TasksTimeOk t := by
  cases hst with
  | user username =>
    intro r hr
    rw [add_user_tasks] at hr
    rw [add_user_clock]
    exact hs r hr
  | start uid nm =>
    intro r hr
    simp only [Database.start_task] at hr ⊢
    rcases List.mem_append.1 hr with h1 | h2
    · exact hs r h1
    · have : r = ⟨s.nextTaskId, uid, nm, s.clock, none⟩ := by simpa using h2
      subst this
      refine ⟨Nat.le_refl _, ?_⟩
      intro f hf
      exact Option.noConfusion hf
  | finish uid nm =>
    intro r hr
    simp only [Database.finish_task] at hr ⊢
    rcases List.mem_map.1 hr with ⟨a, ha, rfl⟩
    rcases hs a ha with ⟨ha1, ha2⟩
    by_cases hc : a.user_id = uid ∧ a.task = nm ∧ a.finish = none
    · rw [if_pos hc]
      refine ⟨ha1, ?_⟩
      intro f hf
      have : s.clock = f := by simpa using hf
      subst this
      exact ⟨ha1, Nat.le_refl _⟩
    · rw [if_neg hc]
      exact ⟨ha1, ha2⟩
  | tick d =>
    intro r hr
    have hr0 : r ∈ s.tasks := hr
    rcases hs r hr0 with ⟨h1, h2⟩
    refine ⟨Nat.le_trans h1 (Nat.le_add_right _ _), ?_⟩
    intro f hf
    rcases h2 f hf with ⟨g1, g2⟩
    exact ⟨g1, Nat.le_trans g2 (Nat.le_add_right _ _)⟩

theorem reachable_tasksTimeOk {s : DBState} (h : Reachable s) : TasksTimeOk s := by
  induction h with
  | init =>
    intro r hr
    cases hr
  | step _ hst ih => exact tasksTimeOk_step ih hst

/-- C8: in every store reachable by add_user, successful start_task,
finish_task and forward clock movement, every task entry with a recorded
finish satisfies start_time less than or equal to finish_time: start_task
stamps the current store clock, finish_task stamps the (no smaller) clock of
a later store time, and no operation decreases either field. -/
theorem C8_reachable_entries_start_le_finish (s : DBState) (h : Reachable s) :
    ∀ r ∈ s.tasks, ∀ f, r.finish = some f → r.start ≤ f := by
  intro r hr f hf
  exact ((reachable_tasksTimeOk h) r hr).2 f hf |>.1

/-- C8 witness: the three-step demo run (start writing at clock 0, clock
advances to 5, finish writing) is reachable and its finished entry satisfies
the bound. -/
theorem C8_witness :
    Reachable c8s3 ∧
    TaskRow.start ⟨1, 1, "writing", 0, some 5⟩ ≤ 5 := by
  have hreach : Reachable c8s3 :=
    Reachable.step
      (Reachable.step
        (Reachable.step Reachable.init (Step.start initState 1 "writing"))
        (Step.tick c8s1 5))
      (Step.finish c8s2 1 "writing")
  refine ⟨hreach, ?_⟩
  exact C8_reachable_entries_start_le_finish c8s3 hreach
    ⟨1, 1, "writing", 0, some 5⟩ (by decide) 5 rfl

/-- C9: the controller keeps no copy of the started task name.  In the demo
run the user starts writing, edits the entry to writing notes while the timer
runs, and presses Stop Task: stop_task hands the edited text to finish_task,
which matches nothing, so the store is unchanged and the started entry is
still open. -/
theorem C9_stop_task_reads_current_entry_text :
    c9s1.tasks = [⟨1, 1, "writing", 0, none⟩] ∧
    c9s3 = c9s2 ∧
    c9s3.tasks = [⟨1, 1, "writing", 0, none⟩] := by
  refine ⟨rfl, ?_, rfl⟩
  decide

/-- C10: the startup line db.add_user of the name Dwisler creates that user
and returns its fresh id when the users table does not hold it yet; when a
run already created it, the unique constraint fires, the statement is rolled
back, and None is returned with the store unchanged. -/
theorem C10_startup_inserts_Dwisler (s : DBState) :
    ((∀ r ∈ s.users, r.username ≠ "Dwisler") →
      moduleStartup s =
        ({ s with
            users := s.users ++ [⟨s.nextUserId, "Dwisler"⟩],
            nextUserId := s.nextUserId + 1 },
         some s.nextUserId)) ∧
    ((∃ r ∈ s.users, r.username = "Dwisler") → moduleStartup s = (s, none)) := by
  constructor
  · intro h
    unfold moduleStartup Database.add_user
    have hany : ¬(s.users.any (fun r => r.username = "Dwisler") = true) := by
      rw [List.any_eq_true]
      rintro ⟨x, hx, hx2⟩
      exact h x hx (by simpa using hx2)
    rw [if_neg hany]
  · rintro ⟨r, hr, hr2⟩
    unfold moduleStartup Database.add_user
    rw [if_pos (List.any_eq_true.2 ⟨r, hr, by simpa using hr2⟩)]

/-- C10 witness: the first run on an empty store creates Dwisler with id 1;
the second run on the resulting store returns None and changes nothing. -/
theorem C10_witness :
    moduleStartup db0 = (⟨[⟨1, "Dwisler"⟩], [], 2, 1, 0⟩, some 1) ∧
    moduleStartup ⟨[⟨1, "Dwisler"⟩], [], 2, 1, 0⟩ =
      (⟨[⟨1, "Dwisler"⟩], [], 2, 1, 0⟩, none) := by
  constructor
  · exact (C10_startup_inserts_Dwisler db0).1 (by decide)
  · exact (C10_startup_inserts_Dwisler _).2 ⟨⟨1, "Dwisler"⟩, by decide, rfl⟩

end MyTimetracker
